import Mathlib

/-!
Verification development for the cadencia-backend repository.

The TypeScript sources are shallowly embedded:
* JS strings become `List Char` / `String`; the JS regex operations used by
  `src/utils/promptUtils.ts` are implemented directly (lazy matching, word
  boundaries, global scanning), faithful to ECMAScript semantics on the
  character classes the code uses.
* JS numbers are modelled as `ℚ` (the JSON values flowing through the code are
  finite decimals produced by `JSON.parse`, which can produce neither `NaN`
  nor infinities; all arithmetic performed by the embedded code on the claims'
  inputs is exact).
* `Math.random()`-driven shuffling is modelled by an explicit random source
  `rand : ℕ → ℕ`; step `i` of the Fisher–Yates loop uses `rand i % (i + 1)`,
  which ranges over exactly the indices `0..i` that
  `Math.floor(Math.random() * (i + 1))` can produce.
* The in-memory token store of `src/services/spotifyService.ts` becomes an
  association list threaded through the functions; the network is modelled by
  an explicit provider response, and each operation additionally reports how
  many provider (network) requests it performed.
-/

namespace Cadencia

/-! ## JS string primitives -/

/-- The character class `\w` of JS regexes: `[A-Za-z0-9_]`. -/
def isWordChar (c : Char) : Bool :=
  (('A' ≤ c && c ≤ 'Z') || ('a' ≤ c && c ≤ 'z') || ('0' ≤ c && c ≤ '9') || c == '_')

/-- JS whitespace (`\s`, `String.prototype.trim`): ASCII whitespace plus the
Unicode space characters relevant here. -/
def isJsWhitespace (c : Char) : Bool :=
  (c == ' ' || c == '\t' || c == '\n' || c == '\r' || c.val == 11 || c.val == 12 ||
   c.val == 0xa0 || c.val == 0xfeff || c.val == 0x2028 || c.val == 0x2029)

/-- Line terminators, which the JS regex `.` does not match. -/
def isJsNewline (c : Char) : Bool :=
  (c == '\n' || c == '\r' || c.val == 0x2028 || c.val == 0x2029)

/-- Embeds `String.prototype.trim`. -/
def jsTrim (cs : List Char) : List Char :=
  ((cs.dropWhile isJsWhitespace).reverse.dropWhile isJsWhitespace).reverse

/-- ASCII lower-casing of a character (`String.prototype.toLowerCase`; the
strings handled by the embedded code are ASCII). -/
def asciiLowerChar (c : Char) : Char :=
  if 'A' ≤ c && c ≤ 'Z' then Char.ofNat (c.toNat + 32) else c

/-- ASCII lower-casing of a string. -/
def asciiLower (s : String) : String :=
  String.mk (s.data.map asciiLowerChar)

/-- Index of the first occurrence of `pat` in the list, counting from `i`. -/
def findSubFrom (pat : List Char) : ℕ → List Char → Option ℕ
  | i, [] => if pat.isPrefixOf ([] : List Char) then some i else none
  | i, c :: t => if pat.isPrefixOf (c :: t) then some i else findSubFrom pat (i + 1) t

/-- Embeds `String.prototype.includes`: substring containment. -/
def containsStr (s pat : String) : Bool :=
  (findSubFrom pat.data 0 s.data).isSome

/-! ## `src/utils/promptUtils.ts` -/

/-- Three backticks, the fence delimiter. -/
def fence : List Char := ['`', '`', '`']

/-- One global pass of `replace(/```[\s\S]*?```/g, '')`: repeatedly delete the
leftmost fenced block (lazy body, so up to the earliest closing fence). -/
def removeCodeBlocksAux : ℕ → List Char → List Char
  | 0, cs => cs
  | fuel + 1, cs =>
    match findSubFrom fence 0 cs with
    | none => cs
    | some i =>
      let rest := cs.drop (i + 3)
      match findSubFrom fence 0 rest with
      | none => cs
      | some j => cs.take i ++ removeCodeBlocksAux fuel (rest.drop (j + 3))

/-- Embeds `replace(/```[\s\S]*?```/g, '')`. -/
def removeCodeBlocks (cs : List Char) : List Char :=
  removeCodeBlocksAux cs.length cs

/-- Lazy search for the closing emphasis marker: returns the captured span
(which may not contain a line terminator, because `.` does not match one) and
the text after the closing marker. -/
def findEmphClose (marker : List Char) : List Char → Option (List Char × List Char)
  | [] => if marker.isPrefixOf ([] : List Char) then some ([], []) else none
  | c :: t =>
    if marker.isPrefixOf (c :: t) then some ([], (c :: t).drop marker.length)
    else if isJsNewline c then none
    else (findEmphClose marker t).map (fun p => (c :: p.1, p.2))

/-- Global pass of `replace(/\*\*(.*?)\*\*/g, '$1')` (or the single-`*`
variant): at each position, on an opening marker take the lazily-matched body
up to the earliest closing marker and keep only the body; when no close
exists on this line, advance one character as the regex engine does. -/
def replaceEmphAux (marker : List Char) : ℕ → List Char → List Char
  | 0, cs => cs
  | _ + 1, [] => []
  | fuel + 1, c :: t =>
    if marker.isPrefixOf (c :: t) then
      match findEmphClose marker ((c :: t).drop marker.length) with
      | some p => p.1 ++ replaceEmphAux marker fuel p.2
      | none => c :: replaceEmphAux marker fuel t
    else c :: replaceEmphAux marker fuel t

/-- Embeds `replace` of an emphasis-marker pattern by its capture group. -/
def replaceEmph (marker : List Char) (cs : List Char) : List Char :=
  replaceEmphAux marker cs.length cs

/-- The fixed placeholder `'[URL REMOVED]'`. -/
def urlPlaceholder : List Char := "[URL REMOVED]".data

/-- Match of `https?:\/\/\S+` at the head of the list: the prefix (with the
greedy `s?` alternative tried first) followed by at least one non-whitespace
character; returns the text after the maximal non-whitespace run. -/
def urlMatchAt (cs : List Char) : Option (List Char) :=
  let tryPre : List Char → Option (List Char) := fun pre =>
    if pre.isPrefixOf cs then
      let rest := cs.drop pre.length
      let run := rest.takeWhile (fun c => ! isJsWhitespace c)
      if run.length ≥ 1 then some (rest.drop run.length) else none
    else none
  match tryPre "https://".data with
  | some rest => some rest
  | none => tryPre "http://".data

/-- Global pass of `replace(/https?:\/\/\S+/g, '[URL REMOVED]')`. -/
def replaceUrlsAux : ℕ → List Char → List Char
  | 0, cs => cs
  | _ + 1, [] => []
  | fuel + 1, c :: t =>
    match urlMatchAt (c :: t) with
    | some rest => urlPlaceholder ++ replaceUrlsAux fuel rest
    | none => c :: replaceUrlsAux fuel t

/-- Embeds `replace(/https?:\/\/\S+/g, '[URL REMOVED]')`. -/
def replaceUrls (cs : List Char) : List Char :=
  replaceUrlsAux cs.length cs

/-- Embeds `replace(/[“”]/g, '"').replace(/[‘’]/g, "'")`. -/
def normalizeQuotesChar (c : Char) : Char :=
  if c.val == 0x201c || c.val == 0x201d then '"'
  else if c.val == 0x2018 || c.val == 0x2019 then Char.ofNat 39
  else c

/-- The transformation pipeline of `sanitizeTextInput` before the length cap:
trim, normalize curly quotes, strip fenced code blocks, strip bold then italic
markers, replace URLs. -/
def sanitizeStages (s : String) : List Char :=
  let t1 := jsTrim s.data
  let t2 := t1.map normalizeQuotesChar
  let t3 := removeCodeBlocks t2
  let t4 := replaceEmph ['*', '*'] t3
  let t5 := replaceEmph ['*'] t4
  replaceUrls t5

/-- Embeds `MAX_LENGTH` of `sanitizeTextInput`. -/
def MAX_LENGTH : ℕ := 1000

/-- Embeds `sanitizeTextInput` of `src/utils/promptUtils.ts`. -/
def sanitizeTextInput (s : String) : String :=
  if s == "" then ""
  else
    let cs := sanitizeStages s
    if MAX_LENGTH < cs.length then String.mk (cs.take MAX_LENGTH ++ "...".data)
    else String.mk cs

/-- Embeds `positiveEmotions` of `extractEmotionalHints`. -/
def positiveEmotions : List String :=
  ["happy", "excited", "joyful", "elated", "pleased", "glad", "delighted",
   "content", "satisfied", "cheerful", "optimistic", "hopeful", "proud",
   "grateful", "loving", "peaceful"]

/-- Embeds `negativeEmotions` of `extractEmotionalHints`. -/
def negativeEmotions : List String :=
  ["sad", "angry", "anxious", "depressed", "stressed", "worried", "frustrated",
   "disappointed", "upset", "miserable", "irritated", "annoyed", "hurt",
   "jealous", "guilty", "ashamed", "lonely", "bored", "tired", "exhausted",
   "melancholy", "nostalgic", "regretful"]

/-- Embeds `energyLevels` of `extractEmotionalHints`. -/
def energyLevels : List String :=
  ["energetic", "calm", "relaxed", "lazy", "exhausted", "hyper", "motivated",
   "lethargic", "active", "passive", "alert", "sleepy", "tired", "restless",
   "tranquil", "serene"]

/-- Embeds `complexEmotions` of `extractEmotionalHints`. -/
def complexEmotions : List String :=
  ["nostalgic", "melancholic", "bittersweet", "ambivalent", "overwhelmed",
   "inspired", "awed", "curious", "confused", "surprised", "shocked",
   "vulnerable", "empowered", "reflective", "contemplative", "determined",
   "passionate", "indifferent", "apathetic", "grateful", "appreciative",
   "yearning", "longing"]

/-- Embeds `allEmotions`: concatenation of the four keyword lists, in source order. -/
def allEmotions : List String :=
  positiveEmotions ++ negativeEmotions ++ energyLevels ++ complexEmotions

/-- Embeds `new RegExp("\\b" + emotion + "\\b", 'i').test(text)`: the word occurs in
the text delimited by word boundaries. -/
def containsWord (text : List Char) (word : List Char) : Bool :=
  (List.range (text.length + 1)).any (fun i =>
    ((text.drop i).take word.length == word) &&
    (i == 0 || (match text.get? (i - 1) with
                | some c => ! isWordChar c
                | none => true)) &&
    (match text.get? (i + word.length) with
     | some c => ! isWordChar c
     | none => true))

/-- Embeds `intensifiers` of `extractEmotionalHints`. -/
def intensifiers : List String :=
  ["very", "extremely", "incredibly", "so", "really", "quite"]

/-- The `exec` loop over `\b<intensifier>\s+(\w+)\b` with the `g` flag:
scanning left to right without overlap, collect the captured `\w+` runs that
follow a word-boundary-delimited occurrence of the intensifier and at least
one whitespace character. `prevIsWord` records whether the character before
the current position is a word character (for the leading `\b`). -/
def bigramMatchesAux (intens : List Char) : ℕ → Bool → List Char → List (List Char)
  | 0, _, _ => []
  | _ + 1, _, [] => []
  | fuel + 1, prevIsWord, c :: t =>
    let cs := c :: t
    let attempt : Option (List Char × List Char) :=
      if ! prevIsWord && intens.isPrefixOf cs then
        let rest := cs.drop intens.length
        let sp := rest.takeWhile isJsWhitespace
        if sp.length ≥ 1 then
          let rest2 := rest.drop sp.length
          let w := rest2.takeWhile isWordChar
          if w.length ≥ 1 then some (w, rest2.drop w.length) else none
        else none
      else none
    match attempt with
    | some p => p.1 :: bigramMatchesAux intens fuel true p.2
    | none => bigramMatchesAux intens fuel (isWordChar c) t

/-- All captures of `\b<intensifier>\s+(\w+)\b` over the text, in match
order. -/
def bigramMatches (intens : List Char) (text : List Char) : List (List Char) :=
  bigramMatchesAux intens (text.length + 1) false text

/-- Embeds `extractEmotionalHints` of `src/utils/promptUtils.ts`. -/
def extractEmotionalHints (s : String) : List String :=
  let lowercaseText := (asciiLower s).data
  let hints1 := allEmotions.filter (fun emotion => containsWord lowercaseText emotion.data)
  intensifiers.foldl (fun hints intensifier =>
    (bigramMatches intensifier.data lowercaseText).foldl (fun hints w =>
      let potentialEmotion := String.mk (w.map asciiLowerChar)
      if allEmotions.contains potentialEmotion && ! hints.contains potentialEmotion then
        hints ++ [intensifier ++ " " ++ potentialEmotion]
      else hints) hints) hints1

/-! ## `src/services/groqService.ts`: post-parse normalization -/

/-- A JSON value as produced by `JSON.parse`. JSON numbers are finite decimals,
modelled as rationals (`JSON.parse` can produce neither `NaN` nor infinities). -/
inductive JsonValue where
  | null : JsonValue
  | bool (b : Bool) : JsonValue
  | num (q : ℚ) : JsonValue
  | str (s : String) : JsonValue
  | arr (l : List JsonValue) : JsonValue
  | obj (kvs : List (String × JsonValue)) : JsonValue

/-- Property access `o[k]` on a parsed JSON object; `JSON.parse` keeps the last
of duplicate keys, and a missing key yields `undefined` (`none`). -/
def jsGet (o : List (String × JsonValue)) (k : String) : Option JsonValue :=
  (o.reverse.find? (fun e => e.1 == k)).map Prod.snd

/-- JS truthiness of a possibly-undefined JSON value. -/
def jsTruthy : Option JsonValue → Bool
  | none => false
  | some JsonValue.null => false
  | some (JsonValue.bool b) => b
  | some (JsonValue.num q) => decide (q ≠ 0)
  | some (JsonValue.str s) => s != ""
  | some (JsonValue.arr _) => true
  | some (JsonValue.obj _) => true

/-- Embeds `typeof value === 'number'` for a possibly-undefined JSON value. -/
def isNumber : Option JsonValue → Bool
  | some (JsonValue.num _) => true
  | _ => false

/-- Embeds `Array.isArray(value)` for a possibly-undefined JSON value. -/
def isArray : Option JsonValue → Bool
  | some (JsonValue.arr _) => true
  | _ => false

/-- Embeds `normalizeBetweenZeroAndOne` of `src/services/groqService.ts`:
`typeof value !== 'number'` yields 0.5, otherwise clamp to `[0, 1]`. -/
def normalizeBetweenZeroAndOne : Option JsonValue → ℚ
  | some (JsonValue.num q) => max 0 (min 1 q)
  | _ => 1 / 2

/-- The normalized mood-analysis record built by `analyzeMood` from the parsed
response. -/
structure MoodAnalysisNormalized where
  mood : JsonValue
  energy : ℚ
  valence : ℚ
  danceability : ℚ
  genres : List JsonValue
  descriptors : List JsonValue
  explanation : Option JsonValue

/-- The normalization step of `analyzeMood` applied to a parsed response
object: `parsedResponse.mood || 'neutral'`, the three clamps, and the
array-typed defaults for `genres` and `descriptors`. -/
def normalizeMoodAnalysis (o : List (String × JsonValue)) : MoodAnalysisNormalized :=
  { mood := if jsTruthy (jsGet o "mood") then (jsGet o "mood").getD JsonValue.null
            else JsonValue.str "neutral"
    energy := normalizeBetweenZeroAndOne (jsGet o "energy")
    valence := normalizeBetweenZeroAndOne (jsGet o "valence")
    danceability := normalizeBetweenZeroAndOne (jsGet o "danceability")
    genres := match jsGet o "genres" with
              | some (JsonValue.arr l) => l
              | _ => []
    descriptors := match jsGet o "descriptors" with
                   | some (JsonValue.arr l) => l
                   | _ => []
    explanation := jsGet o "explanation" }

/-! ## `src/services/musicRecommendationService.ts` -/

/-- The `happy` genre list of `GENRE_MOOD_MAP`. -/
def happyGenres : List String :=
  ["pop", "dance pop", "happy", "disco", "funk", "tropical house", "edm"]

/-- The `energetic` genre list of `GENRE_MOOD_MAP`. -/
def energeticGenres : List String :=
  ["dance", "electronic", "house", "techno", "dubstep", "drum-and-bass", "workout"]

/-- The `relaxed` genre list of `GENRE_MOOD_MAP`. -/
def relaxedGenres : List String :=
  ["chill", "ambient", "acoustic", "lofi", "jazz", "piano", "meditation", "sleep"]

/-- The `sad` genre list of `GENRE_MOOD_MAP`. -/
def sadGenres : List String :=
  ["sad", "indie", "melancholic", "emo", "slowcore", "dream pop", "depressive black metal"]

/-- The `angry` genre list of `GENRE_MOOD_MAP`. -/
def angryGenres : List String :=
  ["metal", "hardcore", "punk", "grunge", "death metal", "industrial", "thrash"]

/-- The `pensive` genre list of `GENRE_MOOD_MAP`. -/
def pensiveGenres : List String :=
  ["indie folk", "alternative", "shoegaze", "post-rock", "singer-songwriter", "ambient"]

/-- The `romantic` genre list of `GENRE_MOOD_MAP`. -/
def romanticGenres : List String :=
  ["r-n-b", "soul", "love songs", "bedroom pop", "slow jazz", "neo-soul"]

/-- The `nostalgic` genre list of `GENRE_MOOD_MAP`. -/
def nostalgicGenres : List String :=
  ["oldies", "80s", "70s", "retro", "synthwave", "classic rock", "vintage"]

/-- Embeds `GENRE_MOOD_MAP`, in `Object.entries` order. -/
def GENRE_MOOD_MAP : List (String × List String) :=
  [("happy", happyGenres), ("energetic", energeticGenres), ("relaxed", relaxedGenres),
   ("sad", sadGenres), ("angry", angryGenres), ("pensive", pensiveGenres),
   ("romantic", romanticGenres), ("nostalgic", nostalgicGenres)]

/-- Swap of the elements at positions `i` and `j`
(`[result[i], result[j]] = [result[j], result[i]]`). -/
def lswap {α : Type} (l : List α) (i j : ℕ) : List α :=
  match l.get? i, l.get? j with
  | some a, some b => (l.set i b).set j a
  | _, _ => l

/-- The Fisher–Yates loop of `shuffleArray`, from index `i` down to 1; step
`i` swaps position `i` with position `rand i % (i + 1)`, the model of
`Math.floor(Math.random() * (i + 1))`. -/
def fisherYatesAux {α : Type} (rand : ℕ → ℕ) : ℕ → List α → List α
  | 0, l => l
  | i + 1, l => fisherYatesAux rand i (lswap l (i + 1) (rand (i + 1) % (i + 2)))

/-- Embeds `shuffleArray` of `src/services/musicRecommendationService.ts`. -/
def shuffleArray {α : Type} (rand : ℕ → ℕ) (l : List α) : List α :=
  fisherYatesAux rand (l.length - 1) l

/-- Embeds `getDefaultGenres` of `src/services/musicRecommendationService.ts`
(`moodLower` is inlined as `asciiLower mood`). -/
def getDefaultGenres (rand : ℕ → ℕ) (mood : String) (energy : ℚ) : List String :=
  match GENRE_MOOD_MAP.find?
      (fun p => containsStr (asciiLower mood) p.1 || asciiLower mood == p.1) with
  | some p => (shuffleArray rand p.2).take 3
  | none =>
    if energy > 7 / 10 then (shuffleArray rand energeticGenres).take 3
    else if energy < 3 / 10 then (shuffleArray rand relaxedGenres).take 3
    else ["pop", "rock", "indie", "alternative"]

/-- First-occurrence de-duplication, the behaviour of `[...new Set(list)]`. -/
def dedupFirst (l : List String) : List String :=
  l.foldl (fun acc g => if acc.contains g then acc else acc ++ [g]) []

/-- Embeds `createMoodDescription` of `src/services/musicRecommendationService.ts`. -/
def createMoodDescription (mood : String) (descriptors : List String) : String :=
  let uniqueDescriptors := dedupFirst (mood :: descriptors)
  if uniqueDescriptors.length ≤ 2 then String.intercalate " and " uniqueDescriptors
  else
    String.intercalate ", " uniqueDescriptors.dropLast ++ " and " ++
      (uniqueDescriptors.getLast?.getD "")

/-- The TS-typed `MoodAnalysisResponse` consumed by the recommendation
service. -/
structure MoodAnalysisResponse where
  mood : String
  energy : ℚ
  danceability : ℚ
  valence : ℚ
  genres : List String
  descriptors : List String
  explanation : Option String

/-- Embeds `MusicRecommendationParams` (the `limit` default of 10 is never read). -/
structure MusicRecommendationParams where
  moodAnalysis : MoodAnalysisResponse
  limit : ℚ := 10
  includeGenres : List String := []
  excludeGenres : List String := []

/-- The `spotifyParams` object built by `getMusicRecommendations`, with its
optional `target_*` fields. -/
structure GroqSpotifyParams where
  target_energy : ℚ
  target_valence : ℚ
  target_danceability : ℚ
  seed_genres : List String
  target_acousticness : Option ℚ := none
  target_instrumentalness : Option ℚ := none
  target_tempo : Option ℚ := none
  target_popularity : Option ℚ := none
  target_mode : Option ℚ := none

/-- Embeds `MusicRecommendationResponse`. -/
structure MusicRecommendationResponse where
  recommendedGenres : List String
  spotifyParameters : GroqSpotifyParams
  moodDescription : String

/-- Embeds `getMusicRecommendations` of `src/services/musicRecommendationService.ts`
(the first, `MoodAnalysisResponse`-based code path). -/
def getMusicRecommendations (rand : ℕ → ℕ) (params : MusicRecommendationParams) :
    MusicRecommendationResponse :=
  let moodAnalysis := params.moodAnalysis
  let excludeGenres := params.excludeGenres
  let includeGenres := params.includeGenres
  let moodGenres :=
    (moodAnalysis.genres.filter (fun genre => ! excludeGenres.contains (asciiLower genre))).take 2
  let recommendedGenres := (dedupFirst (moodGenres ++ includeGenres)).take 5
  let recommendedGenres :=
    if recommendedGenres.length = 0 then
      recommendedGenres ++ getDefaultGenres rand moodAnalysis.mood moodAnalysis.energy
    else recommendedGenres
  let moodDescription := createMoodDescription moodAnalysis.mood moodAnalysis.descriptors
  let moodLower := asciiLower moodAnalysis.mood
  let sp0 : GroqSpotifyParams :=
    { target_energy := moodAnalysis.energy
      target_valence := moodAnalysis.valence
      target_danceability := moodAnalysis.danceability
      seed_genres := recommendedGenres }
  let sp1 :=
    if containsStr moodLower "relaxed" || moodAnalysis.energy < 3 / 10 then
      { sp0 with target_acousticness := some (7 / 10)
                 target_instrumentalness := some (2 / 5)
                 target_tempo := some (70 + (⌊moodAnalysis.energy * 20⌋ : ℤ)) }
    else sp0
  let sp2 :=
    if containsStr moodLower "energetic" || moodAnalysis.energy > 7 / 10 then
      { sp1 with target_tempo := some (120 + (⌊moodAnalysis.energy * 40⌋ : ℤ))
                 target_popularity := some 70 }
    else sp1
  let sp3 :=
    if containsStr moodLower "happy" || moodAnalysis.valence > 7 / 10 then
      { sp2 with target_mode := some 1, target_popularity := some 70 }
    else sp2
  let sp4 :=
    if containsStr moodLower "sad" || moodAnalysis.valence < 3 / 10 then
      { sp3 with target_mode := some 0
                 target_tempo := some (60 + (⌊moodAnalysis.energy * 30⌋ : ℤ)) }
    else sp3
  { recommendedGenres := recommendedGenres
    spotifyParameters := sp4
    moodDescription := moodDescription }

/-- Embeds `RecommendationParams` (the second code path's input). -/
structure RecommendationParams where
  mood : String
  energy : ℚ
  valence : ℚ
  danceability : ℚ
  genres : List String
  includeGenres : List String
  excludeGenres : List String

/-- Embeds `SpotifyParameters` with its optional enrichment fields. -/
structure SpotifyParameters where
  energy : ℚ
  valence : ℚ
  danceability : ℚ
  tempo : Option ℚ := none
  acousticness : Option ℚ := none
  instrumentalness : Option ℚ := none
  popularity : Option ℚ := none
  liveness : Option ℚ := none
  speechiness : Option ℚ := none
  genres : Option (List String) := none

/-- Embeds `RecommendationResponse`. -/
structure RecommendationResponse where
  recommendedGenres : List String
  moodDescription : String
  spotifyParameters : SpotifyParameters

/-- First `if` block of `enhanceSpotifyParameters`: relaxed or calm moods. -/
def enhanceRelaxed (p : SpotifyParameters) (mood : String) (energy : ℚ) : SpotifyParameters :=
  let moodLower := asciiLower mood
  if containsStr moodLower "relaxed" || containsStr moodLower "calm" || energy < 2 / 5 then
    { p with acousticness := some (3 / 5 + (1 - energy) * (3 / 10))
             instrumentalness := some (3 / 10 + (1 - energy) * (2 / 5))
             tempo := some (70 + (⌊energy * 25⌋ : ℤ)) }
  else p

/-- Second `if` block of `enhanceSpotifyParameters`: energetic moods. -/
def enhanceEnergetic (p : SpotifyParameters) (mood : String) (energy : ℚ) : SpotifyParameters :=
  let moodLower := asciiLower mood
  if containsStr moodLower "energetic" || containsStr moodLower "excited" || energy > 7 / 10 then
    { p with tempo := some (120 + (⌊energy * 40⌋ : ℤ))
             liveness := some (3 / 10 + energy * (3 / 10))
             speechiness := some (min (1 / 10 + energy * (1 / 10)) (1 / 5)) }
  else p

/-- Third `if` block of `enhanceSpotifyParameters`: happy moods. -/
def enhanceHappy (p : SpotifyParameters) (mood : String) (valence : ℚ) : SpotifyParameters :=
  let moodLower := asciiLower mood
  if containsStr moodLower "happy" || containsStr moodLower "joyful" || valence > 7 / 10 then
    { p with popularity := some (60 + (⌊valence * 25⌋ : ℤ)) }
  else p

/-- Fourth `if` block of `enhanceSpotifyParameters`: sad or melancholic
moods. -/
def enhanceSad (p : SpotifyParameters) (mood : String) (energy valence : ℚ) : SpotifyParameters :=
  let moodLower := asciiLower mood
  if containsStr moodLower "sad" || containsStr moodLower "melancholic" || valence < 3 / 10 then
    { p with acousticness := some (2 / 5 + (1 - valence) * (3 / 10))
             tempo := some (60 + (⌊energy * 30⌋ : ℤ)) }
  else p

/-- Fifth `if` block of `enhanceSpotifyParameters`: focused moods. -/
def enhanceFocus (p : SpotifyParameters) (mood : String) : SpotifyParameters :=
  let moodLower := asciiLower mood
  if containsStr moodLower "focus" || containsStr moodLower "concentrate" ||
      containsStr moodLower "study" then
    { p with instrumentalness := some (7 / 10)
             speechiness := some (1 / 20)
             valence := 1 / 2 }
  else p

/-- Embeds `enhanceSpotifyParameters` of `src/services/musicRecommendationService.ts`:
the five `if` blocks applied in source order, so later writes win on field
collisions. -/
def enhanceSpotifyParameters (p : SpotifyParameters) (mood : String) (energy valence : ℚ) :
    SpotifyParameters :=
  enhanceFocus
    (enhanceSad (enhanceHappy (enhanceEnergetic (enhanceRelaxed p mood energy) mood energy)
      mood valence) mood energy valence) mood

/-- Embeds `generateMoodDescription` of `src/services/musicRecommendationService.ts`. -/
def generateMoodDescription (mood : String) (energy valence : ℚ) : String :=
  let description := "Music that matches your " ++ asciiLower mood ++ " mood"
  let description :=
    if energy > 7 / 10 then description ++ " with high energy"
    else if energy < 3 / 10 then description ++ " with a calm, relaxed vibe"
    else description
  if valence > 7 / 10 then description ++ " and a very positive feel"
  else if valence < 3 / 10 then description ++ " and a more melancholic atmosphere"
  else description

/-- Steps 1–3 of `getRecommendations`: start from a copy of `genres`, push
each not-yet-present entry of `includeGenres`, then drop every entry of
`excludeGenres` (both inclusion loops guarded by a length check as in the
source). -/
def filteredGenres (params : RecommendationParams) : List String :=
  let base := params.genres
  let withIncluded :=
    if params.includeGenres.length > 0 then
      params.includeGenres.foldl
        (fun acc genre => if acc.contains genre then acc else acc ++ [genre]) base
    else base
  if params.excludeGenres.length > 0 then
    withIncluded.filter (fun genre => ! params.excludeGenres.contains genre)
  else withIncluded

/-- Embeds `getRecommendations` of `src/services/musicRecommendationService.ts`
(the second, `RecommendationParams`-based code path). -/
def getRecommendations (rand : ℕ → ℕ) (params : RecommendationParams) : RecommendationResponse :=
  let filtered := filteredGenres params
  let afterFallback :=
    if filtered.length = 0 then getDefaultGenres rand params.mood params.energy else filtered
  let recommendedGenres := afterFallback.take 5
  let moodDescription := generateMoodDescription params.mood params.energy params.valence
  let sp0 : SpotifyParameters :=
    { energy := params.energy, valence := params.valence, danceability := params.danceability }
  let sp1 :=
    if recommendedGenres.length > 0 then { sp0 with genres := some recommendedGenres } else sp0
  let sp2 := enhanceSpotifyParameters sp1 params.mood params.energy params.valence
  { recommendedGenres := recommendedGenres
    moodDescription := moodDescription
    spotifyParameters := sp2 }

/-! ## `src/services/spotifyService.ts`: token lifecycle -/

/-- Embeds `TokenInfo`; `expiresAt` is epoch milliseconds. -/
structure TokenInfo where
  accessToken : String
  refreshToken : String
  expiresAt : ℤ
  userId : String
deriving DecidableEq

/-- The in-memory `tokenStorage` object, as an association list. -/
abbrev TokenStore : Type := List (String × TokenInfo)

/-- Read `tokenStorage[userId]`. -/
def storeGet (s : TokenStore) (k : String) : Option TokenInfo :=
  ((s : List (String × TokenInfo)).find? (fun e => e.1 == k)).map Prod.snd

/-- Write `tokenStorage[k] = v`: overwrite the entry when the key is present,
append it otherwise. -/
def storeSet (s : TokenStore) (k : String) (v : TokenInfo) : TokenStore :=
  if ((s : List (String × TokenInfo)).find? (fun e => e.1 == k)).isSome then
    (s : List (String × TokenInfo)).map (fun e => if e.1 == k then (k, v) else e)
  else (s : List (String × TokenInfo)) ++ [(k, v)]

/-- The fields of the token-endpoint response that `refreshAccessToken`
reads. -/
structure RefreshResponse where
  access_token : String
  expires_in : ℤ
deriving DecidableEq

/-- Result of a token-service operation: the returned value or thrown error
message, the token store after the call, and how many provider (network)
requests were made. -/
structure TokenOpResult where
  result : Except String String
  store : TokenStore
  networkCalls : ℕ

/-- Embeds `refreshAccessToken` of `src/services/spotifyService.ts`. `provider` is
the outcome of the one POST to the token endpoint; every failure inside the
`try` block surfaces as `'Failed to refresh access token'`. On success the
stored entry's `accessToken` and `expiresAt` are updated in place. -/
def refreshAccessToken (store : TokenStore) (userId : String) (now : ℤ)
    (provider : Except Unit RefreshResponse) : TokenOpResult :=
  match storeGet store userId with
  | none => { result := Except.error "Failed to refresh access token", store := store
              networkCalls := 0 }
  | some tokenInfo =>
    match provider with
    | Except.error _ =>
      { result := Except.error "Failed to refresh access token", store := store
        networkCalls := 1 }
    | Except.ok r =>
      let updated := { tokenInfo with accessToken := r.access_token
                                      expiresAt := now + r.expires_in * 1000 }
      { result := Except.ok updated.accessToken
        store := storeSet store userId updated
        networkCalls := 1 }

/-- Embeds `getValidAccessToken` of `src/services/spotifyService.ts`: missing entry
throws `'User not authenticated'`; an entry expiring within five minutes is
refreshed first; otherwise the cached token is returned as is. -/
def getValidAccessToken (store : TokenStore) (userId : String) (now : ℤ)
    (provider : Except Unit RefreshResponse) : TokenOpResult :=
  match storeGet store userId with
  | none => { result := Except.error "User not authenticated", store := store, networkCalls := 0 }
  | some tokenInfo =>
    if tokenInfo.expiresAt < now + 5 * 60 * 1000 then
      refreshAccessToken store userId now provider
    else { result := Except.ok tokenInfo.accessToken, store := store, networkCalls := 0 }

/-! ## Store lemmas -/

theorem find?_overwrite_self (s : List (String × TokenInfo)) (k : String) (v : TokenInfo)
    (h : (List.find? (fun e => e.1 == k) s).isSome) :
    List.find? (fun e => e.1 == k)
      (s.map (fun e => if e.1 == k then (k, v) else e)) = some (k, v) := by
  induction s with
  | nil => simp at h
  | cons e t ih =>
    rw [List.map_cons]
    by_cases he : (e.1 == k) = true
    · rw [if_pos he]
      exact List.find?_cons_of_pos _ (beq_self_eq_true k)
    · rw [if_neg he]
      have hh : List.find? (fun x => x.1 == k) (e :: t) =
          List.find? (fun x => x.1 == k) t := List.find?_cons_of_neg _ he
      rw [hh] at h
      have hstep : List.find? (fun x => x.1 == k)
          (e :: List.map (fun x => if (x.1 == k) = true then (k, v) else x) t) =
          List.find? (fun x => x.1 == k)
            (List.map (fun x => if (x.1 == k) = true then (k, v) else x) t) :=
        List.find?_cons_of_neg _ he
      rw [hstep]
      exact ih h

theorem find?_overwrite_other (s : List (String × TokenInfo)) (k k' : String) (v : TokenInfo)
    (hkk : (k == k') = false) :
    List.find? (fun e => e.1 == k')
      (s.map (fun e => if e.1 == k then (k, v) else e)) =
    List.find? (fun e => e.1 == k') s := by
  induction s with
  | nil => rfl
  | cons e t ih =>
    rw [List.map_cons]
    set f : String × TokenInfo → String × TokenInfo :=
      fun x => if (x.1 == k) = true then (k, v) else x with hf
    by_cases he : (e.1 == k) = true
    · have he' : e.1 = k := by simpa using he
      have he2 : (e.1 == k') = false := by rw [he']; exact hkk
      have h1 : List.find? (fun x => x.1 == k') ((k, v) :: List.map f t) =
          List.find? (fun x => x.1 == k') (List.map f t) :=
        List.find?_cons_of_neg _ (by simp [hkk])
      have h2 : List.find? (fun x => x.1 == k') (e :: t) =
          List.find? (fun x => x.1 == k') t :=
        List.find?_cons_of_neg _ (by simp [he2])
      rw [if_pos he, h1, h2]
      exact ih
    · rw [if_neg he]
      by_cases he3 : (e.1 == k') = true
      · have h1 : List.find? (fun x => x.1 == k') (e :: List.map f t) = some e :=
          List.find?_cons_of_pos _ he3
        have h2 : List.find? (fun x => x.1 == k') (e :: t) = some e :=
          List.find?_cons_of_pos _ he3
        rw [h1, h2]
      · have h1 : List.find? (fun x => x.1 == k') (e :: List.map f t) =
            List.find? (fun x => x.1 == k') (List.map f t) :=
          List.find?_cons_of_neg _ he3
        have h2 : List.find? (fun x => x.1 == k') (e :: t) =
            List.find? (fun x => x.1 == k') t :=
          List.find?_cons_of_neg _ he3
        rw [h1, h2]
        exact ih

theorem storeGet_storeSet_self (s : TokenStore) (k : String) (v : TokenInfo)
    (h : (storeGet s k).isSome) : storeGet (storeSet s k v) k = some v := by
  have h' : (List.find? (fun e => e.1 == k) s).isSome := by
    simpa [storeGet] using h
  unfold storeGet storeSet
  rw [if_pos h', find?_overwrite_self s k v h']
  rfl

theorem storeGet_storeSet_other (s : TokenStore) (k k' : String) (v : TokenInfo)
    (h : k' ≠ k) : storeGet (storeSet s k v) k' = storeGet s k' := by
  have hkk : (k == k') = false := beq_eq_false_iff_ne.mpr (fun hh => h hh.symm)
  unfold storeGet storeSet
  by_cases hs : (List.find? (fun e => e.1 == k) s).isSome
  · rw [if_pos hs, find?_overwrite_other s k k' v hkk]
  · rw [if_neg hs, List.find?_append]
    have hone : List.find? (fun e => e.1 == k') [(k, v)] = none := by
      simp [List.find?, hkk]
    rw [hone]
    simp

/-! ## Shuffle and default-genre lemmas -/

theorem lswap_subset {α : Type} (l : List α) (i j : ℕ) :
    ∀ x : α, x ∈ lswap l i j → x ∈ l := by
  intro x hx
  unfold lswap at hx
  split at hx
  · rename_i a b ha hb
    rcases List.mem_or_eq_of_mem_set hx with h1 | rfl
    · rcases List.mem_or_eq_of_mem_set h1 with h2 | rfl
      · exact h2
      · exact List.get?_mem hb
    · exact List.get?_mem ha
  · exact hx

theorem lswap_length {α : Type} (l : List α) (i j : ℕ) :
    (lswap l i j).length = l.length := by
  unfold lswap
  split <;> simp

theorem fisherYatesAux_subset {α : Type} (rand : ℕ → ℕ) :
    ∀ (n : ℕ) (l : List α) (x : α), x ∈ fisherYatesAux rand n l → x ∈ l := by
  intro n
  induction n with
  | zero => intro l x hx; exact hx
  | succ i ih =>
    intro l x hx
    simp only [fisherYatesAux] at hx
    exact lswap_subset l (i + 1) (rand (i + 1) % (i + 2)) x (ih _ x hx)

theorem fisherYatesAux_length {α : Type} (rand : ℕ → ℕ) :
    ∀ (n : ℕ) (l : List α), (fisherYatesAux rand n l).length = l.length := by
  intro n
  induction n with
  | zero => intro l; rfl
  | succ i ih =>
    intro l
    simp only [fisherYatesAux]
    rw [ih, lswap_length]

theorem shuffleArray_subset {α : Type} (rand : ℕ → ℕ) (l : List α) :
    ∀ x : α, x ∈ shuffleArray rand l → x ∈ l := by
  intro x hx
  exact fisherYatesAux_subset rand (l.length - 1) l x hx

theorem shuffleArray_length {α : Type} (rand : ℕ → ℕ) (l : List α) :
    (shuffleArray rand l).length = l.length :=
  fisherYatesAux_length rand (l.length - 1) l

theorem genreMoodMap_lists_long : ∀ p ∈ GENRE_MOOD_MAP, 6 ≤ p.2.length := by
  decide

theorem getDefaultGenres_min_length (rand : ℕ → ℕ) (mood : String) (energy : ℚ) :
    3 ≤ (getDefaultGenres rand mood energy).length := by
  unfold getDefaultGenres
  rcases hfind : GENRE_MOOD_MAP.find?
      (fun p => containsStr (asciiLower mood) p.1 || asciiLower mood == p.1) with _ | p
  · rw [hfind]
    by_cases h1 : energy > 7 / 10
    · rw [if_pos h1, List.length_take, shuffleArray_length]
      decide
    · rw [if_neg h1]
      by_cases h2 : energy < 3 / 10
      · rw [if_pos h2, List.length_take, shuffleArray_length]
        decide
      · rw [if_neg h2]
        show 3 ≤ (["pop", "rock", "indie", "alternative"] : List String).length
        decide
  · rw [hfind]
    have h6 : 6 ≤ p.2.length := genreMoodMap_lists_long p (List.mem_of_find?_eq_some hfind)
    rw [List.length_take, shuffleArray_length]
    omega

/-! ## Claim theorems: token lifecycle -/

/-- C6: `getValidAccessToken` fails with the `'User not authenticated'` error
and performs no network request when the store has no entry for the user; when
an entry exists and expires within five minutes it delegates to
`refreshAccessToken` before returning; otherwise it returns the cached access
token unchanged, with the store untouched and no network request. -/
theorem getValidAccessToken_spec (store : TokenStore) (userId : String) (now : ℤ)
    (provider : Except Unit RefreshResponse) :
    (storeGet store userId = none →
      getValidAccessToken store userId now provider =
        { result := Except.error "User not authenticated", store := store, networkCalls := 0 }) ∧
    (∀ t : TokenInfo, storeGet store userId = some t →
      t.expiresAt < now + 5 * 60 * 1000 →
      getValidAccessToken store userId now provider =
        refreshAccessToken store userId now provider) ∧
    (∀ t : TokenInfo, storeGet store userId = some t →
      ¬ t.expiresAt < now + 5 * 60 * 1000 →
      getValidAccessToken store userId now provider =
        { result := Except.ok t.accessToken, store := store, networkCalls := 0 }) := by
  refine ⟨fun h => ?_, fun t ht hexp => ?_, fun t ht hexp => ?_⟩
  · unfold getValidAccessToken
    rw [h]
  · unfold getValidAccessToken
    rw [ht]
    simp only [if_pos hexp]
  · unfold getValidAccessToken
    rw [ht]
    simp only [if_neg hexp]

/-- Witness for C6 at concrete inputs: an empty store errors without a network
call, a soon-expiring entry is refreshed, and a fresh entry is returned as
cached. -/
theorem getValidAccessToken_spec_witness :
    (getValidAccessToken [] "u" 0 (Except.error ()) =
      { result := Except.error "User not authenticated", store := [], networkCalls := 0 }) ∧
    (getValidAccessToken [("u", ⟨"a", "r", 0, "u"⟩)] "u" 0 (Except.error ()) =
      refreshAccessToken [("u", ⟨"a", "r", 0, "u"⟩)] "u" 0 (Except.error ())) ∧
    (getValidAccessToken [("u", ⟨"a", "r", 999999999, "u"⟩)] "u" 0 (Except.error ()) =
      { result := Except.ok "a", store := [("u", ⟨"a", "r", 999999999, "u"⟩)],
        networkCalls := 0 }) :=
  ⟨(getValidAccessToken_spec [] "u" 0 (Except.error ())).1 rfl,
   (getValidAccessToken_spec [("u", ⟨"a", "r", 0, "u"⟩)] "u" 0 (Except.error ())).2.1
     ⟨"a", "r", 0, "u"⟩ rfl (by decide),
   (getValidAccessToken_spec [("u", ⟨"a", "r", 999999999, "u"⟩)] "u" 0 (Except.error ())).2.2
     ⟨"a", "r", 999999999, "u"⟩ rfl (by decide)⟩

/-- C7: a successful `refreshAccessToken` returns the provider's new access
token and updates only `accessToken` and `expiresAt` of the stored entry:
`refreshToken` and `userId` keep their prior values, the entry stays under the
same `userId` key, and every other key of the store is untouched. -/
theorem refreshAccessToken_updates_in_place (store : TokenStore) (userId : String) (now : ℤ)
    (r : RefreshResponse) (t : TokenInfo) (h : storeGet store userId = some t) :
    (refreshAccessToken store userId now (Except.ok r)).result = Except.ok r.access_token ∧
    storeGet (refreshAccessToken store userId now (Except.ok r)).store userId =
      some { t with accessToken := r.access_token, expiresAt := now + r.expires_in * 1000 } ∧
    (∀ k : String, k ≠ userId →
      storeGet (refreshAccessToken store userId now (Except.ok r)).store k =
        storeGet store k) := by
  have hsome : (storeGet store userId).isSome := by rw [h]; rfl
  refine ⟨?_, ?_, fun k hk => ?_⟩
  · unfold refreshAccessToken
    rw [h]
  · unfold refreshAccessToken
    rw [h]
    exact storeGet_storeSet_self store userId _ hsome
  · unfold refreshAccessToken
    rw [h]
    exact storeGet_storeSet_other store userId k _ hk

/-- Witness for C7 at a concrete store: the refreshed entry keeps its
`refreshToken` and `userId`. -/
theorem refreshAccessToken_updates_in_place_witness :
    (refreshAccessToken [("u", ⟨"a", "r", 7, "u"⟩)] "u" 50 (Except.ok ⟨"b", 3600⟩)).result =
      Except.ok "b" ∧
    storeGet (refreshAccessToken [("u", ⟨"a", "r", 7, "u"⟩)] "u" 50
        (Except.ok ⟨"b", 3600⟩)).store "u" =
      some ⟨"b", "r", 50 + 3600 * 1000, "u"⟩ ∧
    storeGet (refreshAccessToken [("u", ⟨"a", "r", 7, "u"⟩)] "u" 50
        (Except.ok ⟨"b", 3600⟩)).store "other" =
      storeGet [("u", ⟨"a", "r", 7, "u"⟩)] "other" :=
  ⟨(refreshAccessToken_updates_in_place [("u", ⟨"a", "r", 7, "u"⟩)] "u" 50 ⟨"b", 3600⟩
      ⟨"a", "r", 7, "u"⟩ rfl).1,
   (refreshAccessToken_updates_in_place [("u", ⟨"a", "r", 7, "u"⟩)] "u" 50 ⟨"b", 3600⟩
      ⟨"a", "r", 7, "u"⟩ rfl).2.1,
   (refreshAccessToken_updates_in_place [("u", ⟨"a", "r", 7, "u"⟩)] "u" 50 ⟨"b", 3600⟩
      ⟨"a", "r", 7, "u"⟩ rfl).2.2 "other" (by decide)⟩

/-- C10: when the provider rejects the refresh request, `refreshAccessToken`
throws `'Failed to refresh access token'` and leaves the store exactly as it
was: the one stored `TokenInfo` is unmodified, because the entry is only
mutated after a successful provider response. -/
theorem refreshAccessToken_atomic_on_failure (store : TokenStore) (userId : String) (now : ℤ)
    (t : TokenInfo) (h : storeGet store userId = some t) :
    refreshAccessToken store userId now (Except.error ()) =
      { result := Except.error "Failed to refresh access token", store := store,
        networkCalls := 1 } := by
  unfold refreshAccessToken
  rw [h]

/-- Witness for C10 at a concrete store. -/
theorem refreshAccessToken_atomic_on_failure_witness :
    refreshAccessToken [("u", ⟨"a", "r", 7, "u"⟩)] "u" 50 (Except.error ()) =
      { result := Except.error "Failed to refresh access token",
        store := [("u", ⟨"a", "r", 7, "u"⟩)], networkCalls := 1 } :=
  refreshAccessToken_atomic_on_failure [("u", ⟨"a", "r", 7, "u"⟩)] "u" 50
    ⟨"a", "r", 7, "u"⟩ rfl

/-! ## Claim theorems: recommendation mapper -/

/-- C2: for every random source and every input, `getRecommendations` returns
a non-empty `recommendedGenres` list; `getDefaultGenres` always yields at
least 3 genres; and with empty `genres`/`includeGenres`/`excludeGenres`,
mood `"energetic"` and energy 0.8, every returned genre belongs to the fixed
energetic category list. -/
theorem getRecommendations_nonempty_genres (rand : ℕ → ℕ) (p : RecommendationParams)
    (v d : ℚ) :
    (getRecommendations rand p).recommendedGenres ≠ [] ∧
    3 ≤ (getDefaultGenres rand p.mood p.energy).length ∧
    ∀ g ∈ (getRecommendations rand
        { mood := "energetic", energy := 4 / 5, valence := v, danceability := d,
          genres := [], includeGenres := [], excludeGenres := [] }).recommendedGenres,
      g ∈ energeticGenres := by
  refine ⟨?_, getDefaultGenres_min_length rand p.mood p.energy, ?_⟩
  · have hre : (getRecommendations rand p).recommendedGenres =
        (if (filteredGenres p).length = 0 then getDefaultGenres rand p.mood p.energy
         else filteredGenres p).take 5 := rfl
    rw [hre, ← List.length_pos, List.length_take]
    by_cases h : (filteredGenres p).length = 0
    · rw [if_pos h]
      have h3 := getDefaultGenres_min_length rand p.mood p.energy
      omega
    · rw [if_neg h]
      omega
  · intro g hg
    have hre : (getRecommendations rand
        { mood := "energetic", energy := 4 / 5, valence := v, danceability := d,
          genres := [], includeGenres := [], excludeGenres := [] }).recommendedGenres =
        ((shuffleArray rand energeticGenres).take 3).take 5 := rfl
    rw [hre] at hg
    exact shuffleArray_subset rand energeticGenres g
      (List.take_subset 3 _ (List.take_subset 5 _ hg))

/-- Witness for C2 at a concrete random source and input: the returned list is
non-empty and `"electronic"` (a member of the concrete result) is in the
energetic category list. -/
theorem getRecommendations_nonempty_genres_witness :
    (getRecommendations (fun _ => 0)
      { mood := "energetic", energy := 4 / 5, valence := 0, danceability := 0,
        genres := [], includeGenres := [], excludeGenres := [] }).recommendedGenres ≠ [] ∧
    "electronic" ∈ energeticGenres :=
  ⟨(getRecommendations_nonempty_genres (fun _ => 0)
      { mood := "energetic", energy := 4 / 5, valence := 0, danceability := 0,
        genres := [], includeGenres := [], excludeGenres := [] } 0 0).1,
   (getRecommendations_nonempty_genres (fun _ => 0)
      { mood := "energetic", energy := 4 / 5, valence := 0, danceability := 0,
        genres := [], includeGenres := [], excludeGenres := [] } 0 0).2.2
     "electronic" (by decide)⟩

/-- C3 (amended): in the `getRecommendations` code path, a genre that occurs
in `genres`, `includeGenres` and `excludeGenres` never appears in the returned
`recommendedGenres`, provided the default-genre fallback is not taken. (In the
`getMusicRecommendations` path the claim fails, see the counterexample:
`includeGenres` entries are merged in after the exclusion filter.) -/
theorem getRecommendations_exclude_removes (rand : ℕ → ℕ) (p : RecommendationParams)
    (g : String) (_hg : g ∈ p.genres) (_hinc : g ∈ p.includeGenres)
    (hexc : g ∈ p.excludeGenres) (hfb : filteredGenres p ≠ []) :
    g ∉ (getRecommendations rand p).recommendedGenres := by
  intro hmem
  have hre : (getRecommendations rand p).recommendedGenres =
      (if (filteredGenres p).length = 0 then getDefaultGenres rand p.mood p.energy
       else filteredGenres p).take 5 := rfl
  rw [hre, if_neg (fun hh => hfb (List.length_eq_zero.mp hh))] at hmem
  have h2 : g ∈ filteredGenres p := List.take_subset 5 _ hmem
  unfold filteredGenres at h2
  rw [if_pos (List.length_pos.mpr (List.ne_nil_of_mem hexc))] at h2
  have h6 := (List.mem_filter.mp h2).2
  simp at h6
  exact h6 hexc

/-- Witness for C3's amended statement at a concrete input where the fallback
is not taken. -/
theorem getRecommendations_exclude_removes_witness :
    "pop" ∉ (getRecommendations (fun _ => 0)
      { mood := "x", energy := 1 / 2, valence := 1 / 2, danceability := 0,
        genres := ["pop", "rock"], includeGenres := ["pop"],
        excludeGenres := ["pop"] }).recommendedGenres :=
  getRecommendations_exclude_removes (fun _ => 0)
    { mood := "x", energy := 1 / 2, valence := 1 / 2, danceability := 0,
      genres := ["pop", "rock"], includeGenres := ["pop"], excludeGenres := ["pop"] }
    "pop" (by decide) (by decide) (by decide) (by decide)

/-- Counterexample to C3 as stated: in the `getMusicRecommendations` code
path, with `"pop"` present in the analysis genres, in `includeGenres` and in
`excludeGenres`, the returned `recommendedGenres` is exactly `["pop"]` — the
excluded genre appears in the result (and the default-genre fallback was not
taken, since the result comes from the merge step). -/
theorem getMusicRecommendations_exclude_cex :
    (getMusicRecommendations (fun _ => 0)
      { moodAnalysis := { mood := "x", energy := 1 / 2, danceability := 1 / 2,
                          valence := 1 / 2, genres := ["pop"], descriptors := [],
                          explanation := none },
        includeGenres := ["pop"], excludeGenres := ["pop"] }).recommendedGenres =
      ["pop"] := by
  decide

theorem enhance_sad_tempo_any (sp : SpotifyParameters) :
    (enhanceSpotifyParameters sp "sad" (1 / 5) (1 / 5)).tempo = some 66 := by
  show some ((60 : ℚ) + ((⌊(1 / 5 : ℚ) * 30⌋ : ℤ) : ℚ)) = some 66
  norm_num

/-- C5: with mood `"sad"`, energy 0.2 and valence 0.2, the relaxed rule
(energy < 0.4) first sets tempo to `70 + floor(0.2*25) = 75`, and the sad rule
(valence < 0.3), evaluated later in the fixed rule order, overwrites it with
`60 + floor(0.2*30) = 66`; the tempo returned by `getRecommendations` is
therefore exactly 66 — later writes win on field collisions. -/
theorem sad_rule_overrides_relaxed_tempo (rand : ℕ → ℕ) (gs inc exc : List String)
    (d : ℚ) (sp : SpotifyParameters) :
    (enhanceRelaxed sp "sad" (1 / 5)).tempo = some 75 ∧
    (enhanceSad (enhanceRelaxed sp "sad" (1 / 5)) "sad" (1 / 5) (1 / 5)).tempo = some 66 ∧
    (getRecommendations rand
      { mood := "sad", energy := 1 / 5, valence := 1 / 5, danceability := d,
        genres := gs, includeGenres := inc, excludeGenres := exc
      }).spotifyParameters.tempo = some 66 := by
  refine ⟨?_, ?_, ?_⟩
  · have hc : (1 : ℚ) / 5 < 2 / 5 := by norm_num
    have hb : (containsStr (asciiLower "sad") "relaxed" ||
        containsStr (asciiLower "sad") "calm" || decide ((1 : ℚ) / 5 < 2 / 5)) = true := by
      rw [decide_eq_true hc, Bool.or_true]
    simp only [enhanceRelaxed, hb, if_true]
    exact congrArg some (by norm_num)
  · show some ((60 : ℚ) + ((⌊(1 / 5 : ℚ) * 30⌋ : ℤ) : ℚ)) = some 66
    norm_num
  · exact enhance_sad_tempo_any _

/-- Witness for C5 at a concrete random source, genre lists, danceability and
seed parameter record. -/
theorem sad_rule_overrides_relaxed_tempo_witness :
    (getRecommendations (fun _ => 0)
      { mood := "sad", energy := 1 / 5, valence := 1 / 5, danceability := 0,
        genres := [], includeGenres := [], excludeGenres := []
      }).spotifyParameters.tempo = some 66 :=
  (sad_rule_overrides_relaxed_tempo (fun _ => 0) [] [] [] 0
    { energy := 1 / 5, valence := 1 / 5, danceability := 0 }).2.2

/-- C9 (implicit): the default-genre fallback of `getRecommendations` is not
filtered against `excludeGenres`: with `genres = ["pop"]`, empty
`includeGenres`, `excludeGenres = ["pop"]`, the non-matching mood `"neutral"`
and any energy in `[0.3, 0.7]`, the excluded `"pop"` reappears in the
result via the fixed 4-genre default list. -/
theorem excluded_genre_reappears_via_fallback (rand : ℕ → ℕ) (e v d : ℚ)
    (h1 : 3 / 10 ≤ e) (h2 : e ≤ 7 / 10) :
    "pop" ∈ (getRecommendations rand
      { mood := "neutral", energy := e, valence := v, danceability := d,
        genres := ["pop"], includeGenres := [], excludeGenres := ["pop"]
      }).recommendedGenres := by
  have hre : (getRecommendations rand
      { mood := "neutral", energy := e, valence := v, danceability := d,
        genres := ["pop"], includeGenres := [], excludeGenres := ["pop"]
      }).recommendedGenres = (getDefaultGenres rand "neutral" e).take 5 := rfl
  have hdef : getDefaultGenres rand "neutral" e =
      (if e > 7 / 10 then (shuffleArray rand energeticGenres).take 3
       else if e < 3 / 10 then (shuffleArray rand relaxedGenres).take 3
       else ["pop", "rock", "indie", "alternative"]) := rfl
  rw [hre, hdef, if_neg (not_lt.mpr h2), if_neg (not_lt.mpr h1)]
  decide

/-- Witness for C9 at energy 0.5 and a concrete random source. -/
theorem excluded_genre_reappears_via_fallback_witness :
    "pop" ∈ (getRecommendations (fun _ => 0)
      { mood := "neutral", energy := 1 / 2, valence := 0, danceability := 0,
        genres := ["pop"], includeGenres := [], excludeGenres := ["pop"]
      }).recommendedGenres :=
  excluded_genre_reappears_via_fallback (fun _ => 0) (1 / 2) 0 0
    (by norm_num) (by norm_num)

/-! ## Claim theorems: mood normalization, hints, sanitizer -/

/-- C1: the clamp function yields exactly 0.5 on every non-numeric value and
a value in `[0, 1]` on every numeric one; the normalized record produces
energy/valence/danceability through that clamp, defaults `genres` and
`descriptors` to the empty sequence when the field is not array-typed, and
defaults `mood` to the literal `"neutral"` when the field is absent or
falsy. -/
theorem analyzeMood_normalization :
    (∀ v : Option JsonValue,
      (isNumber v = false → normalizeBetweenZeroAndOne v = 1 / 2) ∧
      0 ≤ normalizeBetweenZeroAndOne v ∧ normalizeBetweenZeroAndOne v ≤ 1) ∧
    (∀ o : List (String × JsonValue),
      (normalizeMoodAnalysis o).energy = normalizeBetweenZeroAndOne (jsGet o "energy") ∧
      (normalizeMoodAnalysis o).valence = normalizeBetweenZeroAndOne (jsGet o "valence") ∧
      (normalizeMoodAnalysis o).danceability =
        normalizeBetweenZeroAndOne (jsGet o "danceability") ∧
      (isArray (jsGet o "genres") = false → (normalizeMoodAnalysis o).genres = []) ∧
      (isArray (jsGet o "descriptors") = false →
        (normalizeMoodAnalysis o).descriptors = []) ∧
      (jsTruthy (jsGet o "mood") = false →
        (normalizeMoodAnalysis o).mood = JsonValue.str "neutral")) := by
  constructor
  · intro v
    refine ⟨?_, ?_, ?_⟩
    · intro h
      rcases v with _ | w
      · rfl
      · cases w with
        | num q => exact absurd h (by simp [isNumber])
        | null => rfl
        | bool b => rfl
        | str s => rfl
        | arr l => rfl
        | obj kvs => rfl
    · rcases v with _ | w
      · norm_num [normalizeBetweenZeroAndOne]
      · cases w with
        | num q => exact le_max_left 0 (min 1 q)
        | null => norm_num [normalizeBetweenZeroAndOne]
        | bool b => norm_num [normalizeBetweenZeroAndOne]
        | str s => norm_num [normalizeBetweenZeroAndOne]
        | arr l => norm_num [normalizeBetweenZeroAndOne]
        | obj kvs => norm_num [normalizeBetweenZeroAndOne]
    · rcases v with _ | w
      · norm_num [normalizeBetweenZeroAndOne]
      · cases w with
        | num q => exact max_le (by norm_num) (min_le_left 1 q)
        | null => norm_num [normalizeBetweenZeroAndOne]
        | bool b => norm_num [normalizeBetweenZeroAndOne]
        | str s => norm_num [normalizeBetweenZeroAndOne]
        | arr l => norm_num [normalizeBetweenZeroAndOne]
        | obj kvs => norm_num [normalizeBetweenZeroAndOne]
  · intro o
    refine ⟨rfl, rfl, rfl, ?_, ?_, ?_⟩
    · intro h
      show (match jsGet o "genres" with
            | some (JsonValue.arr l) => l
            | _ => ([] : List JsonValue)) = []
      rcases hv : jsGet o "genres" with _ | w
      · rfl
      · rw [hv] at h
        cases w with
        | arr l => exact absurd h (by simp [isArray])
        | null => rfl
        | bool b => rfl
        | num q => rfl
        | str s => rfl
        | obj kvs => rfl
    · intro h
      show (match jsGet o "descriptors" with
            | some (JsonValue.arr l) => l
            | _ => ([] : List JsonValue)) = []
      rcases hv : jsGet o "descriptors" with _ | w
      · rfl
      · rw [hv] at h
        cases w with
        | arr l => exact absurd h (by simp [isArray])
        | null => rfl
        | bool b => rfl
        | num q => rfl
        | str s => rfl
        | obj kvs => rfl
    · intro h
      show (if jsTruthy (jsGet o "mood") then (jsGet o "mood").getD JsonValue.null
            else JsonValue.str "neutral") = JsonValue.str "neutral"
      rw [h]
      rfl

/-- Witness for C1: a string-valued `energy` clamps to the 0.5 default, and
with `genres` and `mood` absent, the normalized record has empty genres and
the `"neutral"` mood. -/
theorem analyzeMood_normalization_witness :
    normalizeBetweenZeroAndOne (some (JsonValue.str "high")) = 1 / 2 ∧
    (normalizeMoodAnalysis [("energy", JsonValue.str "high")]).genres = [] ∧
    (normalizeMoodAnalysis [("energy", JsonValue.str "high")]).mood =
      JsonValue.str "neutral" :=
  ⟨(analyzeMood_normalization.1 (some (JsonValue.str "high"))).1 rfl,
   (analyzeMood_normalization.2 [("energy", JsonValue.str "high")]).2.2.2.1 rfl,
   (analyzeMood_normalization.2 [("energy", JsonValue.str "high")]).2.2.2.2.2 rfl⟩

/-- C4 evaluates the code at the claim's input: `extractEmotionalHints` on
`"I am very happy today"` returns exactly `["happy"]` — the bigram hint
`"very happy"` is NOT included, because the intensifier pass pushes the
composed hint only when the bare emotion word is not already in `hints`, and
the word-level pass has always already added it. The claim (and the spec's
intent that the composed-string presence is what is checked) is violated by
the code. -/
theorem extractEmotionalHints_very_happy :
    extractEmotionalHints "I am very happy today" = ["happy"] := by
  decide

/-- C8: the sanitize scenario — trimmed, code block removed, bold markers
stripped to the inner text, URL replaced by the placeholder; the empty string
maps to the empty string; and the pipeline output is truncated to 1000
characters with an ellipsis marker appended exactly when it exceeds 1000
characters. -/
theorem sanitizeTextInput_spec :
    sanitizeTextInput " She said ```code``` and **bold** http://x.com " =
      "She said  and bold [URL REMOVED]" ∧
    sanitizeTextInput "" = "" ∧
    (∀ s : String, MAX_LENGTH < (sanitizeStages s).length →
      sanitizeTextInput s =
        String.mk ((sanitizeStages s).take MAX_LENGTH ++ "...".data)) ∧
    (∀ s : String, s ≠ "" → (sanitizeStages s).length ≤ MAX_LENGTH →
      sanitizeTextInput s = String.mk (sanitizeStages s)) := by
  refine ⟨by decide, rfl, ?_, ?_⟩
  · intro s h
    unfold sanitizeTextInput
    by_cases hs : (s == "") = true
    · have hs' : s = "" := by simpa using hs
      subst hs'
      exact absurd h (by decide)
    · rw [if_neg hs, if_pos h]
  · intro s hne hlen
    unfold sanitizeTextInput
    rw [if_neg (fun hh => hne (by simpa using hh)), if_neg (not_lt.mpr hlen)]

set_option maxRecDepth 20000 in
/-- Witness for C8's truncation clauses: a 1001-character input is truncated
with the ellipsis appended, and a short input is returned un-truncated. -/
theorem sanitizeTextInput_spec_witness :
    sanitizeTextInput (String.mk (List.replicate 1001 'a')) =
      String.mk ((sanitizeStages (String.mk (List.replicate 1001 'a'))).take MAX_LENGTH
        ++ "...".data) ∧
    sanitizeTextInput "abc" = String.mk (sanitizeStages "abc") :=
  ⟨sanitizeTextInput_spec.2.2.1 (String.mk (List.replicate 1001 'a')) (by decide),
   sanitizeTextInput_spec.2.2.2 "abc" (by decide) (by decide)⟩

end Cadencia
